import Mathlib

/-!
Verification of the SITL test-fixture module `droneapi/tools/__init__.py`.

The module owns one process-wide simulator handle (`sitl = SITL('copter',
'3.3-rc5')`), a fixed launch argument list (`sitl_args`), a setup function
(`setup_sitl`), a teardown function (`teardown_sitl`), and a decorator
(`with_sitl`) that wraps a test function with the setup/teardown pair.

The external collaborators (the `dronekit.sitl.SITL` launcher class and the
test framework's `with_setup` fixture primitive) are not part of the source
under analysis; their behaviour is modelled from the specification's
black-box description: `launch(args, await_ready, restart)` blocks until the
simulator is ready or fails with a launch failure, forcing a restart of an
already-running instance when `restart` holds; `stop()` terminates the
process or fails with a stop failure; the fixture primitive runs setup
before the test body and teardown after it, on the normal return path only.

The embedding threads an explicit world: the simulator process state, an
event trace recording every command issued to the handle and every
invocation of a wrapped test body, and a count of handles constructed.
-/

namespace DronekitTools

/-- Failure conditions surfaced by the external launcher, plus an error
raised from inside a wrapped test body. -/
inductive Error where
  | launchFailure
  | stopFailure
  | testError
deriving DecidableEq, Repr

/-- Observable events: construction of a simulator handle, a launch command
with its argument list and flags, an invocation of the wrapped test body
with its argument, and a stop command. `α` is the argument type of the
wrapped test function. -/
inductive Event (α : Type) where
  | construct (vehicle version : String)
  | launch (args : List String) (await_ready restart : Bool)
  | call (a : α)
  | stop
deriving DecidableEq, Repr

/-- State of the external simulator process: whether it is running, whether
it has reported ready, how many simulator instances are live, and the
argument list of the most recent launch. -/
structure SimState where
  running : Bool
  ready : Bool
  instances : Nat
  launchedArgs : Option (List String)
deriving DecidableEq, Repr

/-- The world threaded through the embedding: simulator state, event trace,
and the number of simulator handles constructed so far. -/
structure World (α : Type) where
  sim : SimState
  trace : List (Event α)
  handles : Nat
deriving DecidableEq, Repr

/-- Environment describing the behaviour of the external launcher: whether
the next launch fails to reach the ready state, and whether the next stop
fails to terminate cleanly. -/
structure Env where
  launchFails : Bool
  stopFails : Bool
deriving DecidableEq, Repr

/-- The world before module initialization: no simulator, empty trace, no
handle constructed. -/
def emptyWorld {α : Type} : World α :=
  { sim := { running := false, ready := false, instances := 0, launchedArgs := none }
    trace := []
    handles := 0 }

/-- Modelled from the spec: `construct(vehicle_kind, firmware_version) →
handle` of the external launcher. Records the construction event and counts
the new handle. -/
def SITL.construct {α : Type} (vehicle version : String) (w : World α) : World α :=
  { w with handles := w.handles + 1
           trace := w.trace ++ [Event.construct vehicle version] }

/-- Modelled from the spec: `handle.launch(args, await_ready, restart)` of
the external launcher (`dronekit.sitl.SITL.launch`, not under the analysed
source). The command is recorded on the trace; if the environment makes the
launch fail, a `launchFailure` surfaces and the simulator state is
unchanged; launching over an already-running instance without `restart` is
left undefined by the spec and modelled as a launch failure; otherwise the
(re)started simulator is the single live instance, ready when the call
awaited readiness. -/
def SITL.launch {α : Type} (env : Env) (args : List String)
    (await_ready restart : Bool) (w : World α) : World α × Except Error Unit :=
  let w1 : World α := { w with trace := w.trace ++ [Event.launch args await_ready restart] }
  if env.launchFails then
    (w1, Except.error Error.launchFailure)
  else if w.sim.running && !restart then
    (w1, Except.error Error.launchFailure)
  else
    ({ w1 with sim := { running := true, ready := await_ready, instances := 1,
                        launchedArgs := some args } },
     Except.ok ())

/-- Modelled from the spec: `handle.stop()` of the external launcher. The
command is recorded; if the environment makes the stop fail, a
`stopFailure` surfaces and the simulator state is unchanged; otherwise no
simulator process is left running. -/
def SITL.stop {α : Type} (env : Env) (w : World α) : World α × Except Error Unit :=
  let w1 : World α := { w with trace := w.trace ++ [Event.stop] }
  if env.stopFails then
    (w1, Except.error Error.stopFailure)
  else
    ({ w1 with sim := { running := false, ready := false, instances := 0,
                        launchedArgs := w.sim.launchedArgs } },
     Except.ok ())

/-- Source line: `sitl_args = ['-I0', '-S', '--model', 'quad',
'--home=-35.363261,149.165230,584,353']`. -/
def sitl_args : List String :=
  ["-I0", "-S", "--model", "quad", "--home=-35.363261,149.165230,584,353"]

/-- Source line: `sitl = SITL('copter', '3.3-rc5')`, executed once at module
import: the world after module initialization. -/
def moduleInit {α : Type} : World α :=
  SITL.construct "copter" "3.3-rc5" (emptyWorld : World α)

/-- Source: `def setup_sitl(): sitl.launch(sitl_args, await_ready=True,
restart=True)`. -/
def setup_sitl {α : Type} (env : Env) (w : World α) : World α × Except Error Unit :=
  SITL.launch env sitl_args true true w

/-- Source: `def teardown_sitl(): sitl.stop()`. -/
def teardown_sitl {α : Type} (env : Env) (w : World α) : World α × Except Error Unit :=
  SITL.stop env w

/-- Source: `def with_sitl(fn)` returns `test` wrapped by
`with_setup(setup_sitl, teardown_sitl)`. Decoration itself touches nothing:
it returns the world unchanged together with the wrapped function. The
wrapped function's run-time behaviour is modelled from the spec's
description of the fixture primitive: first `setup_sitl`, then the inner
test function with its original argument (recorded as a call event), then
`teardown_sitl` — on the normal return path only, so a failure of the body
short-circuits before teardown. -/
def with_sitl {α β : Type} (fn : α → Except Error β) (w : World α) :
    World α × (α → Env → World α → World α × Except Error β) :=
  (w, fun a env w0 =>
    let s := setup_sitl env w0
    match s.2 with
    | Except.error e => (s.1, Except.error e)
    | Except.ok _ =>
      let w1 : World α := { s.1 with trace := s.1.trace ++ [Event.call a] }
      match fn a with
      | Except.error e => (w1, Except.error e)
      | Except.ok b =>
        let t := teardown_sitl env w1
        match t.2 with
        | Except.error e => (t.1, Except.error e)
        | Except.ok _ => (t.1, Except.ok b))

/-- Number of handle-construction events on a trace. -/
def countConstruct {α : Type} (t : List (Event α)) : Nat :=
  (t.filter fun e => match e with | Event.construct _ _ => true | _ => false).length

/-- Number of stop (teardown) commands on a trace. -/
def countStop {α : Type} (t : List (Event α)) : Nat :=
  (t.filter fun e => match e with | Event.stop => true | _ => false).length

/-- Operations a test process can perform against the fixture module. -/
inductive Op (α β : Type) where
  | setup
  | teardown
  | invoke (fn : α → Except Error β) (a : α)

/-- Run one operation, keeping only its effect on the world. -/
def runOp {α β : Type} (env : Env) (op : Op α β) (w : World α) : World α :=
  match op with
  | Op.setup => (setup_sitl env w).1
  | Op.teardown => (teardown_sitl env w).1
  | Op.invoke fn a => ((with_sitl fn w).2 a env w).1

/-- Run a sequence of operations. -/
def steps {α β : Type} (env : Env) (ops : List (Op α β)) (w : World α) : World α :=
  match ops with
  | [] => w
  | op :: rest => steps env rest (runOp env op w)

/-- A single fixture operation never constructs a handle: the handle count
and the number of construction events are preserved. Shared invariant
lemma. -/
theorem runOp_no_construct {α β : Type} (env : Env) (op : Op α β) (w : World α) :
    (runOp env op w).handles = w.handles
      ∧ countConstruct (runOp env op w).trace = countConstruct w.trace := by
  cases op with
  | setup =>
    simp only [runOp, setup_sitl, SITL.launch]
    split <;> simp [countConstruct, List.filter_append]
  | teardown =>
    simp only [runOp, teardown_sitl, SITL.stop]
    split <;> simp [countConstruct, List.filter_append]
  | invoke fn a =>
    by_cases hl : env.launchFails
    · simp [runOp, with_sitl, setup_sitl, SITL.launch, hl, countConstruct, List.filter_append]
    · cases hfa : fn a with
      | error e =>
        simp [runOp, with_sitl, setup_sitl, teardown_sitl, SITL.launch, SITL.stop, hl, hfa,
          countConstruct, List.filter_append]
      | ok b =>
        by_cases hs : env.stopFails <;>
          simp [runOp, with_sitl, setup_sitl, teardown_sitl, SITL.launch, SITL.stop, hl, hfa,
            hs, countConstruct, List.filter_append]

/-- Running any operation sequence preserves the handle count and the
number of construction events. Shared invariant lemma. -/
theorem steps_no_construct {α β : Type} (env : Env) (ops : List (Op α β)) :
    ∀ w : World α, (steps env ops w).handles = w.handles
      ∧ countConstruct (steps env ops w).trace = countConstruct w.trace := by
  induction ops with
  | nil => intro w; exact ⟨rfl, rfl⟩
  | cons op rest ih =>
    intro w
    have h1 := runOp_no_construct env op w
    have h2 := ih (runOp env op w)
    exact ⟨h2.1.trans h1.1, h2.2.trans h1.2⟩

/-- Claim C1: for every test function wrapped by with_sitl and every
argument, a normally-returning invocation of the wrapped function performs
exactly one setup call (launch of the simulator), immediately followed by
exactly one invocation of the test function with the original argument,
followed by exactly one teardown call (stop of the simulator), in that
order, and returns the test function's result. -/
theorem with_sitl_setup_call_teardown {α β : Type} (fn : α → Except Error β)
    (a : α) (b : β) (env : Env) (w0 w : World α)
    (hf : fn a = Except.ok b)
    (hl : env.launchFails = false) (hs : env.stopFails = false) :
    ((with_sitl fn w0).2 a env w).1.trace
        = w.trace ++ [Event.launch sitl_args true true, Event.call a, Event.stop]
      ∧ ((with_sitl fn w0).2 a env w).2 = Except.ok b := by
  simp [with_sitl, setup_sitl, teardown_sitl, SITL.launch, SITL.stop, hf, hl, hs]

/-- Concrete instance of C1: wrapping the constant test returning 42 and
invoking it from the module-initial world yields exactly the
launch/call/stop trace and the value 42. -/
theorem with_sitl_setup_call_teardown_witness :
    ((with_sitl (fun _ : Unit => Except.ok (42 : Int)) emptyWorld).2 () ⟨false, false⟩
        (moduleInit : World Unit)).1.trace
        = (moduleInit : World Unit).trace
            ++ [Event.launch sitl_args true true, Event.call (), Event.stop]
      ∧ ((with_sitl (fun _ : Unit => Except.ok (42 : Int)) emptyWorld).2 () ⟨false, false⟩
          (moduleInit : World Unit)).2 = Except.ok 42 :=
  with_sitl_setup_call_teardown (fun _ : Unit => Except.ok (42 : Int)) () 42
    ⟨false, false⟩ emptyWorld moduleInit rfl rfl rfl

/-- Claim C2: the argument list setup_sitl passes to the handle's launch
operation is exactly the literal sequence -I0, -S, --model, quad,
--home=-35.363261,149.165230,584,353, in order. -/
theorem setup_sitl_passes_literal_args {α : Type} (env : Env) (w : World α) :
    sitl_args = ["-I0", "-S", "--model", "quad", "--home=-35.363261,149.165230,584,353"]
      ∧ (setup_sitl env w).1.trace = w.trace ++ [Event.launch sitl_args true true] := by
  refine ⟨rfl, ?_⟩
  by_cases hl : env.launchFails <;> simp [setup_sitl, SITL.launch, hl]

/-- Claim C3: setup_sitl instructs the handle to launch with the fixed
argument list, awaiting readiness and forcing a restart, and on normal
return the simulator is running and ready. -/
theorem setup_sitl_ready_on_return {α : Type} (env : Env) (w : World α)
    (h : (setup_sitl env w).2 = Except.ok ()) :
    (setup_sitl env w).1.sim.ready = true
      ∧ (setup_sitl env w).1.sim.running = true
      ∧ (setup_sitl env w).1.trace = w.trace ++ [Event.launch sitl_args true true] := by
  by_cases hl : env.launchFails
  · simp [setup_sitl, SITL.launch, hl] at h
  · simp [setup_sitl, SITL.launch, hl]

/-- Concrete instance of C3: a successful setup from the module-initial
world leaves the simulator running and ready, having issued the fixed
launch command. -/
theorem setup_sitl_ready_on_return_witness :
    (setup_sitl ⟨false, false⟩ (moduleInit : World Unit)).1.sim.ready = true
      ∧ (setup_sitl ⟨false, false⟩ (moduleInit : World Unit)).1.sim.running = true
      ∧ (setup_sitl ⟨false, false⟩ (moduleInit : World Unit)).1.trace
          = (moduleInit : World Unit).trace ++ [Event.launch sitl_args true true] :=
  setup_sitl_ready_on_return ⟨false, false⟩ moduleInit rfl

/-- Claim C4: for every test function that returns a value, the
with_sitl-wrapped function returns that same value, and its invocation
triggers setup before and teardown after the call to the test function. -/
theorem with_sitl_returns_value {α β : Type} (fn : α → Except Error β)
    (a : α) (v : β) (env : Env) (w0 w : World α)
    (hf : fn a = Except.ok v)
    (hl : env.launchFails = false) (hs : env.stopFails = false) :
    ((with_sitl fn w0).2 a env w).2 = Except.ok v
      ∧ ((with_sitl fn w0).2 a env w).1.trace
          = w.trace ++ [Event.launch sitl_args true true, Event.call a, Event.stop] := by
  simp [with_sitl, setup_sitl, teardown_sitl, SITL.launch, SITL.stop, hf, hl, hs]

/-- Concrete instance of C4: the spec scenario of a test returning the
integer 42: the wrapped invocation returns 42 with setup before and
teardown after the call. -/
theorem with_sitl_returns_value_witness :
    ((with_sitl (fun _ : Unit => Except.ok (42 : Int)) moduleInit).2 () ⟨false, false⟩
        (moduleInit : World Unit)).2 = Except.ok 42
      ∧ ((with_sitl (fun _ : Unit => Except.ok (42 : Int)) moduleInit).2 () ⟨false, false⟩
          (moduleInit : World Unit)).1.trace
          = (moduleInit : World Unit).trace
              ++ [Event.launch sitl_args true true, Event.call (), Event.stop] :=
  with_sitl_returns_value (fun _ : Unit => Except.ok (42 : Int)) () 42
    ⟨false, false⟩ moduleInit moduleInit rfl rfl rfl

/-- Claim C5: teardown runs only on the normal return path: if the wrapped
test function raises, the stop command is never issued — the trace ends at
the call event, no stop event is added, and the error propagates. -/
theorem with_sitl_no_teardown_on_body_error {α β : Type} (fn : α → Except Error β)
    (a : α) (e : Error) (env : Env) (w0 w : World α)
    (hf : fn a = Except.error e)
    (hl : env.launchFails = false) :
    ((with_sitl fn w0).2 a env w).2 = Except.error e
      ∧ ((with_sitl fn w0).2 a env w).1.trace
          = w.trace ++ [Event.launch sitl_args true true, Event.call a]
      ∧ countStop ((with_sitl fn w0).2 a env w).1.trace = countStop w.trace := by
  simp [with_sitl, setup_sitl, SITL.launch, hf, hl, countStop, List.filter_append]

/-- Concrete instance of C5: a body raising a test error from the
module-initial world leaves a trace with the launch and call events only;
no stop command was issued. -/
theorem with_sitl_no_teardown_on_body_error_witness :
    ((with_sitl (fun _ : Unit => (Except.error Error.testError : Except Error Int))
        moduleInit).2 () ⟨false, false⟩ (moduleInit : World Unit)).2
        = Except.error Error.testError
      ∧ ((with_sitl (fun _ : Unit => (Except.error Error.testError : Except Error Int))
          moduleInit).2 () ⟨false, false⟩ (moduleInit : World Unit)).1.trace
          = (moduleInit : World Unit).trace ++ [Event.launch sitl_args true true, Event.call ()]
      ∧ countStop ((with_sitl (fun _ : Unit => (Except.error Error.testError : Except Error Int))
          moduleInit).2 () ⟨false, false⟩ (moduleInit : World Unit)).1.trace
          = countStop (moduleInit : World Unit).trace :=
  with_sitl_no_teardown_on_body_error
    (fun _ : Unit => (Except.error Error.testError : Except Error Int)) () Error.testError
    ⟨false, false⟩ moduleInit moduleInit rfl rfl

/-- Claim C6: calling setup_sitl twice in succession raises no error and
leaves exactly one simulator instance running, because the second launch
forces a restart of the already-running instance. -/
theorem setup_sitl_idempotent {α : Type} (env : Env) (w : World α)
    (h : env.launchFails = false) :
    (setup_sitl env w).2 = Except.ok ()
      ∧ (setup_sitl env (setup_sitl env w).1).2 = Except.ok ()
      ∧ (setup_sitl env (setup_sitl env w).1).1.sim.instances = 1
      ∧ (setup_sitl env (setup_sitl env w).1).1.sim.running = true := by
  simp [setup_sitl, SITL.launch, h]

/-- Concrete instance of C6: two successive setups from the module-initial
world both succeed and leave one running instance. -/
theorem setup_sitl_idempotent_witness :
    (setup_sitl ⟨false, false⟩ (moduleInit : World Unit)).2 = Except.ok ()
      ∧ (setup_sitl ⟨false, false⟩ (setup_sitl ⟨false, false⟩ (moduleInit : World Unit)).1).2
          = Except.ok ()
      ∧ (setup_sitl ⟨false, false⟩
          (setup_sitl ⟨false, false⟩ (moduleInit : World Unit)).1).1.sim.instances = 1
      ∧ (setup_sitl ⟨false, false⟩
          (setup_sitl ⟨false, false⟩ (moduleInit : World Unit)).1).1.sim.running = true :=
  setup_sitl_idempotent ⟨false, false⟩ moduleInit rfl

/-- Claim C7: teardown_sitl instructs the handle to stop the process; on
normal return no simulator process is left running. -/
theorem teardown_sitl_stops {α : Type} (env : Env) (w : World α)
    (h : env.stopFails = false) :
    (teardown_sitl env w).2 = Except.ok ()
      ∧ (teardown_sitl env w).1.sim.running = false
      ∧ (teardown_sitl env w).1.sim.instances = 0
      ∧ (teardown_sitl env w).1.trace = w.trace ++ [Event.stop] := by
  simp [teardown_sitl, SITL.stop, h]

/-- Concrete instance of C7: a successful teardown from the module-initial
world leaves no process running. -/
theorem teardown_sitl_stops_witness :
    (teardown_sitl ⟨false, false⟩ (moduleInit : World Unit)).2 = Except.ok ()
      ∧ (teardown_sitl ⟨false, false⟩ (moduleInit : World Unit)).1.sim.running = false
      ∧ (teardown_sitl ⟨false, false⟩ (moduleInit : World Unit)).1.sim.instances = 0
      ∧ (teardown_sitl ⟨false, false⟩ (moduleInit : World Unit)).1.trace
          = (moduleInit : World Unit).trace ++ [Event.stop] :=
  teardown_sitl_stops ⟨false, false⟩ moduleInit rfl

/-- Claim C8: setup_sitl is exactly the handle's launch operation and
teardown_sitl exactly its stop operation — no local recovery, retry, or
handling — so a launch failure surfaces from setup_sitl and a stop failure
surfaces from teardown_sitl unmodified. -/
theorem fixture_failures_propagate_unmodified {α : Type} (env : Env) (w : World α) :
    setup_sitl env w = SITL.launch env sitl_args true true w
      ∧ teardown_sitl env w = SITL.stop env w
      ∧ (env.launchFails = true → (setup_sitl env w).2 = Except.error Error.launchFailure)
      ∧ (env.stopFails = true → (teardown_sitl env w).2 = Except.error Error.stopFailure) := by
  refine ⟨rfl, rfl, fun hl => ?_, fun hs => ?_⟩
  · simp [setup_sitl, SITL.launch, hl]
  · simp [teardown_sitl, SITL.stop, hs]

/-- Concrete instance of C8: with a failing launcher, setup_sitl surfaces
the launch failure and teardown_sitl the stop failure. -/
theorem fixture_failures_propagate_unmodified_witness :
    (setup_sitl ⟨true, true⟩ (moduleInit : World Unit)).2 = Except.error Error.launchFailure
      ∧ (teardown_sitl ⟨true, true⟩ (moduleInit : World Unit)).2
          = Except.error Error.stopFailure :=
  ⟨(fixture_failures_propagate_unmodified ⟨true, true⟩ (moduleInit : World Unit)).2.2.1 rfl,
   (fixture_failures_propagate_unmodified ⟨true, true⟩ (moduleInit : World Unit)).2.2.2 rfl⟩

/-- Claim C9: module initialization constructs exactly one simulator
handle (copter, 3.3-rc5), and no sequence of setup, teardown, or wrapped
invocations ever constructs a second one: the handle count and the number
of construction events stay at one. -/
theorem single_handle_invariant {α β : Type} (env : Env) (ops : List (Op α β)) :
    (moduleInit : World α).handles = 1
      ∧ countConstruct (moduleInit : World α).trace = 1
      ∧ (moduleInit : World α).trace = [Event.construct "copter" "3.3-rc5"]
      ∧ (steps env ops (moduleInit : World α)).handles = 1
      ∧ countConstruct (steps env ops (moduleInit : World α)).trace = 1 := by
  have h := steps_no_construct env ops (moduleInit : World α)
  exact ⟨rfl, rfl, rfl, h.1.trans rfl, h.2.trans rfl⟩

/-- Claim C10: decorating a function with with_sitl has no effect: the
world — simulator state, trace, handle count — is unchanged, no launch or
stop is performed and the inner function is not invoked; only invoking the
returned wrapper can affect the simulator. -/
theorem with_sitl_decoration_no_effect {α β : Type} (fn : α → Except Error β) (w : World α) :
    (with_sitl fn w).1 = w
      ∧ (with_sitl fn w).1.trace = w.trace
      ∧ (with_sitl fn w).1.sim = w.sim
      ∧ (with_sitl fn w).1.handles = w.handles :=
  ⟨rfl, rfl, rfl, rfl⟩

end DronekitTools
